import Mathlib

/-!
Shallow embedding of faucet/watcher.py: the Gauge sink factory and the four
text-producing sinks (port state, port stats, meter stats, flow table).

External collaborators that watcher.py only calls (the device identity
provider dp.name / dp.port_labels, dpid_log, the poller base class helper
_rcv_time, and msg.to_jsondict) are passed in as function parameters, so every
theorem below holds for any implementation of those collaborators.
-/

/-- The concrete watcher classes named in the WATCHER_TYPES table of
watcher.py (three of them defined in the file itself, the rest imported from
the influx and prometheus modules). -/
inductive WatcherClass where
  | gaugePortStateLogger
  | gaugePortStateInfluxDBLogger
  | gaugePortStatePrometheusPoller
  | gaugePortStatsLogger
  | gaugePortStatsInfluxDBLogger
  | gaugePortStatsPrometheusPoller
  | gaugeFlowTableLogger
  | gaugeFlowTableInfluxDBLogger
  | gaugeFlowTablePrometheusPoller
  | gaugeMeterStatsLogger
  | gaugeMeterStatsPrometheusPoller
  deriving DecidableEq, Repr

/-- faucet.conf.InvalidConfigError: carries the message string it is raised
with. -/
structure InvalidConfigError where
  msg : String
  deriving DecidableEq, Repr

/-- The slice of a GaugeConf object that watcher.py reads: conf.type,
conf.db_type, conf.file and conf.compress. A falsy conf.file (None or the
empty string) is modelled as none. -/
structure GaugeConf where
  type : String
  db_type : String
  file : Option String
  compress : Bool
  deriving DecidableEq, Repr

/-- The two-level WATCHER_TYPES dict literal of watcher_factory, as an
association list mirroring the source order. -/
def WATCHER_TYPES : List (String × List (String × WatcherClass)) :=
  [ ("port_state",
      [ ("text", .gaugePortStateLogger),
        ("influx", .gaugePortStateInfluxDBLogger),
        ("prometheus", .gaugePortStatePrometheusPoller) ]),
    ("port_stats",
      [ ("text", .gaugePortStatsLogger),
        ("influx", .gaugePortStatsInfluxDBLogger),
        ("prometheus", .gaugePortStatsPrometheusPoller) ]),
    ("flow_table",
      [ ("text", .gaugeFlowTableLogger),
        ("influx", .gaugeFlowTableInfluxDBLogger),
        ("prometheus", .gaugeFlowTablePrometheusPoller) ]),
    ("meter_stats",
      [ ("text", .gaugeMeterStatsLogger),
        ("prometheus", .gaugeMeterStatsPrometheusPoller) ]) ]

/-- The double subscript WATCHER_TYPES[w_type][db_type]: none models a
KeyError at either level. -/
def watcherLookup (w_type db_type : String) : Option WatcherClass :=
  (WATCHER_TYPES.lookup w_type).bind fun inner => inner.lookup db_type

/-- watcher_factory(conf): returns the class found by the double subscript,
and turns a KeyError at either level into
InvalidConfigError('invalid water config'). -/
def watcher_factory (conf : GaugeConf) : Except InvalidConfigError WatcherClass :=
  match watcherLookup conf.type conf.db_type with
  | some cls => .ok cls
  | none => .error ⟨"invalid water config"⟩

/-- pat occurs as a contiguous substring of s. -/
def strContains (s pat : String) : Prop := pat.toList <:+: s.toList

instance (s pat : String) : Decidable (strContains s pat) :=
  List.decidableInfix pat.toList s.toList

/-- C1: every pair ticked in the support matrix resolves to the corresponding
concrete class; the pair (meter_stats, influx) and every other pair absent
from WATCHER_TYPES raise InvalidConfigError. -/
theorem watcher_factory_matrix :
    (watcher_factory ⟨"port_state", "text", none, false⟩ = .ok .gaugePortStateLogger) ∧
    (watcher_factory ⟨"port_state", "influx", none, false⟩ = .ok .gaugePortStateInfluxDBLogger) ∧
    (watcher_factory ⟨"port_state", "prometheus", none, false⟩ = .ok .gaugePortStatePrometheusPoller) ∧
    (watcher_factory ⟨"port_stats", "text", none, false⟩ = .ok .gaugePortStatsLogger) ∧
    (watcher_factory ⟨"port_stats", "influx", none, false⟩ = .ok .gaugePortStatsInfluxDBLogger) ∧
    (watcher_factory ⟨"port_stats", "prometheus", none, false⟩ = .ok .gaugePortStatsPrometheusPoller) ∧
    (watcher_factory ⟨"flow_table", "text", none, false⟩ = .ok .gaugeFlowTableLogger) ∧
    (watcher_factory ⟨"flow_table", "influx", none, false⟩ = .ok .gaugeFlowTableInfluxDBLogger) ∧
    (watcher_factory ⟨"flow_table", "prometheus", none, false⟩ = .ok .gaugeFlowTablePrometheusPoller) ∧
    (watcher_factory ⟨"meter_stats", "text", none, false⟩ = .ok .gaugeMeterStatsLogger) ∧
    (watcher_factory ⟨"meter_stats", "prometheus", none, false⟩ = .ok .gaugeMeterStatsPrometheusPoller) ∧
    (∃ e, watcher_factory ⟨"meter_stats", "influx", none, false⟩ = .error e) ∧
    (∀ conf : GaugeConf, watcherLookup conf.type conf.db_type = none →
      ∃ e, watcher_factory conf = .error e) := by
  refine ⟨rfl, rfl, rfl, rfl, rfl, rfl, rfl, rfl, rfl, rfl, rfl, ⟨_, rfl⟩, ?_⟩
  intro conf h
  exact ⟨⟨"invalid water config"⟩, by simp [watcher_factory, h]⟩

/-- C1 witness: the absent pair (port_state, sqlite) is rejected. -/
theorem watcher_factory_matrix_witness :
    ∃ e, watcher_factory ⟨"port_state", "sqlite", none, false⟩ = .error e :=
  watcher_factory_matrix.2.2.2.2.2.2.2.2.2.2.2.2 ⟨"port_state", "sqlite", none, false⟩ (by decide)

/-- C2 counterexample: rejecting (meter_stats, influx) raises the fixed
message 'invalid water config', which names neither the report kind nor the
backend kind of the invalid pair. -/
theorem watcher_factory_error_message_generic :
    watcher_factory ⟨"meter_stats", "influx", none, false⟩ = .error ⟨"invalid water config"⟩ ∧
    ¬ strContains "invalid water config" "meter_stats" ∧
    ¬ strContains "invalid water config" "influx" := by
  refine ⟨rfl, ?_, ?_⟩ <;> decide

/-- C2 amended: every rejected pair raises InvalidConfigError with the one
fixed message 'invalid water config'; the message does not describe the
specific unsupported pair. -/
theorem watcher_factory_error_message_fixed :
    ∀ conf : GaugeConf, watcherLookup conf.type conf.db_type = none →
      watcher_factory conf = .error ⟨"invalid water config"⟩ := by
  intro conf h
  simp [watcher_factory, h]

/-- C2 amended witness: at the pair (meter_stats, influx). -/
theorem watcher_factory_error_message_fixed_witness :
    watcher_factory ⟨"meter_stats", "influx", none, false⟩ = .error ⟨"invalid water config"⟩ :=
  watcher_factory_error_message_fixed ⟨"meter_stats", "influx", none, false⟩ (by decide)

/-! Port-State sink (GaugePortStateLogger). -/

/-- The constants read from ryu.ofproto.ofproto_v1_3. -/
def OFPPR_ADD : Nat := 0

/-- OFPPR_DELETE = 1 in OpenFlow 1.3. -/
def OFPPR_DELETE : Nat := 1

/-- OFPPR_MODIFY = 2 in OpenFlow 1.3. -/
def OFPPR_MODIFY : Nat := 2

/-- OFPPS_LINK_DOWN = 1 in OpenFlow 1.3. -/
def OFPPS_LINK_DOWN : Nat := 1

/-- The fields of the port description msg.desc that _update reads. -/
structure PortDesc where
  port_no : Nat
  state : Nat
  deriving DecidableEq, Repr

/-- The fields of an OFPPortStatus message that GaugePortStateLogger._update
reads. -/
structure PortStatusMsg where
  reason : Nat
  desc : PortDesc
  deriving DecidableEq, Repr

/-- The log_msg computation of GaugePortStateLogger._update (watcher.py lines
79-91): default 'port N unknown state R', overridden by the add / delete /
modify branches; modify tests the truthiness of state AND OFPPS_LINK_DOWN. -/
def portStateLogMsg (msg : PortStatusMsg) : String :=
  let port_no := msg.desc.port_no
  let log_msg := "port " ++ toString port_no ++ " unknown state " ++ toString msg.reason
  if msg.reason = OFPPR_ADD then
    "port " ++ toString port_no ++ " added"
  else if msg.reason = OFPPR_DELETE then
    "port " ++ toString port_no ++ " deleted"
  else if msg.reason = OFPPR_MODIFY then
    let link_down := msg.desc.state &&& OFPPS_LINK_DOWN
    if link_down ≠ 0 then
      "port " ++ toString port_no ++ " down"
    else
      "port " ++ toString port_no ++ " up"
  else
    log_msg

/-- The observable effects of one GaugePortStateLogger._update call: the
device-prefixed message passed to logger.info, and the (path, text) pairs
appended to files. -/
structure PortStateOut where
  log_msg : String
  fileWrites : List (String × String)
  deriving DecidableEq, Repr

/-- GaugePortStateLogger._update (watcher.py lines 77-96). dpidLog stands for
the external faucet.valve_util.dpid_log and rcv_time_str for the already
rendered self._rcv_time(rcv_time); the message is built as
'%s %s' % (dpid_log(dp_id), log_msg), logged at info level, and, only when
conf.file is truthy, '\t'.join((rcv_time_str, log_msg)) + '\n' is appended to
conf.file through a scoped open in append mode. -/
def portStateUpdate (dpidLog : Nat → String) (rcv_time_str : String)
    (dp_id : Nat) (conf_file : Option String) (msg : PortStatusMsg) : PortStateOut :=
  let log_msg := dpidLog dp_id ++ " " ++ portStateLogMsg msg
  { log_msg := log_msg,
    fileWrites :=
      match conf_file with
      | some f => [(f, String.intercalate "\t" [rcv_time_str, log_msg] ++ "\n")]
      | none => [] }

/-- Joining three strings with a one-character separator. -/
theorem intercalate_three (sep a b c : String) :
    String.intercalate sep [a, b, c] = a ++ sep ++ b ++ sep ++ c := rfl

/-- Joining two strings with a one-character separator. -/
theorem intercalate_two (sep a b : String) :
    String.intercalate sep [a, b] = a ++ sep ++ b := rfl

/-- C3: the rendered port-state message follows the five-row table: added,
deleted, modified with the link-down bit set, modified with it clear, and a
defensive default for every other reason code. -/
theorem port_state_message_table :
    (∀ p s, portStateLogMsg ⟨OFPPR_ADD, ⟨p, s⟩⟩ = "port " ++ toString p ++ " added") ∧
    (∀ p s, portStateLogMsg ⟨OFPPR_DELETE, ⟨p, s⟩⟩ = "port " ++ toString p ++ " deleted") ∧
    (∀ p s, s &&& OFPPS_LINK_DOWN ≠ 0 →
      portStateLogMsg ⟨OFPPR_MODIFY, ⟨p, s⟩⟩ = "port " ++ toString p ++ " down") ∧
    (∀ p s, s &&& OFPPS_LINK_DOWN = 0 →
      portStateLogMsg ⟨OFPPR_MODIFY, ⟨p, s⟩⟩ = "port " ++ toString p ++ " up") ∧
    (∀ r p s, r ≠ OFPPR_ADD → r ≠ OFPPR_DELETE → r ≠ OFPPR_MODIFY →
      portStateLogMsg ⟨r, ⟨p, s⟩⟩ = "port " ++ toString p ++ " unknown state " ++ toString r) := by
  refine ⟨fun p s => rfl, fun p s => rfl, fun p s h => ?_, fun p s h => ?_, fun r p s h1 h2 h3 => ?_⟩
  · simp [portStateLogMsg, OFPPR_ADD, OFPPR_DELETE, OFPPR_MODIFY, h]
  · simp [portStateLogMsg, OFPPR_ADD, OFPPR_DELETE, OFPPR_MODIFY, h]
  · simp [portStateLogMsg, h1, h2, h3]

/-- C3 witness: the spec's concrete examples, reason = modified with the
link-down bit set at port 3, and the unknown reason 99 at port 7. -/
theorem port_state_message_table_witness :
    portStateLogMsg ⟨OFPPR_MODIFY, ⟨3, 1⟩⟩ = "port 3 down" ∧
    portStateLogMsg ⟨OFPPR_MODIFY, ⟨3, 0⟩⟩ = "port 3 up" ∧
    portStateLogMsg ⟨99, ⟨7, 0⟩⟩ = "port 7 unknown state 99" :=
  ⟨(port_state_message_table.2.2.1 3 1 (by decide)).trans (by decide),
   (port_state_message_table.2.2.2.1 3 0 (by decide)).trans (by decide),
   (port_state_message_table.2.2.2.2 99 7 0 (by decide) (by decide) (by decide)).trans (by decide)⟩

/-- C8: one _update call logs exactly the device-prefixed message at info
level, and appends the line rcv_time_str TAB message NEWLINE to the
configured file exactly when a file is configured, with no other write. -/
theorem port_state_update_effects :
    ∀ (dpidLog : Nat → String) (rcv_time_str : String) (dp_id : Nat) (msg : PortStatusMsg),
      ((portStateUpdate dpidLog rcv_time_str dp_id none msg).log_msg =
          dpidLog dp_id ++ " " ++ portStateLogMsg msg ∧
        (portStateUpdate dpidLog rcv_time_str dp_id none msg).fileWrites = []) ∧
      (∀ f : String,
        (portStateUpdate dpidLog rcv_time_str dp_id (some f) msg).log_msg =
            dpidLog dp_id ++ " " ++ portStateLogMsg msg ∧
          (portStateUpdate dpidLog rcv_time_str dp_id (some f) msg).fileWrites =
            [(f, rcv_time_str ++ "\t" ++ (dpidLog dp_id ++ " " ++ portStateLogMsg msg) ++ "\n")]) :=
  fun dpidLog rcv_time_str dp_id msg =>
    ⟨⟨rfl, rfl⟩, fun f => ⟨rfl, rfl⟩⟩

/-! A stateful view of the port-state sink, for the idempotence claim: the
sink's surroundings that a call can mutate are the accumulated process log
and the file contents. -/

/-- File system state: content by path; a path never written holds "", and
open(path, 'a') followed by a write appends. -/
def FileSys : Type := String → String

/-- Appending s to the file at path. -/
def appendFile (fs : FileSys) (path s : String) : FileSys :=
  fun p => if p = path then fs p ++ s else fs p

/-- A port-state sink instance together with the mutable world around it:
its fixed collaborators and config, the process log, and the file system. -/
structure PortStateSinkWorld (τ : Type) where
  dpidLog : Nat → String
  rcvTime : τ → String
  dp_id : Nat
  conf_file : Option String
  logLines : List String
  fs : FileSys

/-- Running GaugePortStateLogger._update once from a given world: returns the
new world and the message that the call rendered and logged. -/
def portStateUpdateRun {τ : Type} (w : PortStateSinkWorld τ) (rcv_time : τ)
    (msg : PortStatusMsg) : PortStateSinkWorld τ × String :=
  let out := portStateUpdate w.dpidLog (w.rcvTime rcv_time) w.dp_id w.conf_file msg
  ({ w with
      logLines := w.logLines ++ [out.log_msg],
      fs := out.fileWrites.foldl (fun fs pw => appendFile fs pw.1 pw.2) w.fs },
    out.log_msg)

/-- C10: with no file configured, running _update twice with the same receive
time and the same report renders the same message both times; the first call
mutates nothing that the second call's output depends on. -/
theorem port_state_update_idempotent :
    ∀ (τ : Type) (w : PortStateSinkWorld τ) (t : τ) (msg : PortStatusMsg),
      w.conf_file = none →
      (portStateUpdateRun (portStateUpdateRun w t msg).1 t msg).2 =
        (portStateUpdateRun w t msg).2 := by
  intro τ w t msg h
  simp [portStateUpdateRun, portStateUpdate, h]

/-- C10 witness: a concrete world with no file configured, updated twice with
the added-port report for port 5. -/
theorem port_state_update_idempotent_witness :
    (portStateUpdateRun
        (portStateUpdateRun
          ⟨fun n => "DPID " ++ toString n, fun t => toString t, 1, none, [], fun _ => ""⟩
          (0 : Nat) ⟨OFPPR_ADD, ⟨5, 0⟩⟩).1
        (0 : Nat) ⟨OFPPR_ADD, ⟨5, 0⟩⟩).2 =
      (portStateUpdateRun
        (⟨fun n => "DPID " ++ toString n, fun t => toString t, 1, none, [], fun _ => ""⟩ :
          PortStateSinkWorld Nat)
        (0 : Nat) ⟨OFPPR_ADD, ⟨5, 0⟩⟩).2 :=
  port_state_update_idempotent Nat
    ⟨fun n => "DPID " ++ toString n, fun t => toString t, 1, none, [], fun _ => ""⟩
    (0 : Nat) ⟨OFPPR_ADD, ⟨5, 0⟩⟩ rfl

/-! Port-Stats sink (GaugePortStatsLogger). -/

/-- GaugePortStatsLogger._dp_stat_name (watcher.py lines 112-114).
port_labels stands for the external provider composition
dp.port_labels(port_no)['port']; a missing label is its failure, propagated
(none), never replaced by a default. The name is
'-'.join((dp.name, port_name, stat_name)). -/
def dpStatName (dpName : String) (port_labels : Nat → Option String)
    (port_no : Nat) (stat_name : String) : Option String :=
  (port_labels port_no).map fun port_name =>
    String.intercalate "-" [dpName, port_name, stat_name]

/-- C5: the port-stats series name is the pure composition
device_name + "-" + port_label(port_no) + "-" + counter_name; the provider's
failure propagates with no default substituted; and identical inputs always
give identical output. -/
theorem dp_stat_name_compose :
    (∀ (dpName : String) (port_labels : Nat → Option String) (port_no : Nat)
        (stat_name label : String),
      port_labels port_no = some label →
      dpStatName dpName port_labels port_no stat_name =
        some (dpName ++ "-" ++ label ++ "-" ++ stat_name)) ∧
    (∀ (dpName : String) (port_labels : Nat → Option String) (port_no : Nat)
        (stat_name : String),
      port_labels port_no = none →
      dpStatName dpName port_labels port_no stat_name = none) ∧
    (∀ (dpName : String) (pl pl2 : Nat → Option String) (port_no port_no2 : Nat)
        (stat_name : String),
      pl port_no = pl2 port_no2 →
      dpStatName dpName pl port_no stat_name = dpStatName dpName pl2 port_no2 stat_name) := by
  refine ⟨fun dpName pl p sn l h => ?_, fun dpName pl p sn h => ?_,
    fun dpName pl pl2 p p2 sn h => ?_⟩
  · simp [dpStatName, h, intercalate_three]
  · simp [dpStatName, h]
  · simp [dpStatName, h]

/-- C5 witness: device sw, provider labelling port 1 as p1, counter rx. -/
theorem dp_stat_name_compose_witness :
    dpStatName "sw" (fun n => if n = 1 then some "p1" else none) 1 "rx" = some "sw-p1-rx" :=
  (dp_stat_name_compose.1 "sw" (fun n => if n = 1 then some "p1" else none) 1 "rx" "p1"
    (by decide)).trans (by decide)

/-! Meter-Stats sink (GaugeMeterStatsLogger). -/

/-- One entry of stat.band_stats. -/
structure BandStats where
  byte_band_count : Nat
  packet_band_count : Nat
  deriving DecidableEq, Repr

/-- The fields of an OFPMeterStats reply entry that the meter-stats sink
reads. -/
structure MeterStats where
  meter_id : Nat
  flow_count : Nat
  byte_in_count : Nat
  packet_in_count : Nat
  band_stats : List BandStats
  deriving DecidableEq, Repr

/-- The stat_pairs tuple built by GaugeMeterStatsLogger._format_stat_pairs
(watcher.py lines 120-127): band_stats = stat.band_stats[0] raises IndexError
on an empty sequence (none); otherwise the five (key path, value) pairs, in
source order, are handed to the shared _format_stats helper. -/
def meterFormatStatPairs (stat : MeterStats) : Option (List (List String × Nat)) :=
  match stat.band_stats with
  | [] => none
  | band_stats :: _ =>
    some [ (["flow", "count"], stat.flow_count),
           (["byte", "in", "count"], stat.byte_in_count),
           (["packet", "in", "count"], stat.packet_in_count),
           (["byte", "band", "count"], band_stats.byte_band_count),
           (["packet", "band", "count"], band_stats.packet_band_count) ]

/-- GaugeMeterStatsLogger._dp_stat_name (watcher.py lines 130-131):
'-'.join((dp.name, str(meter_id), stat_name)). -/
def meterDpStatName (dpName : String) (stat : MeterStats) (stat_name : String) : String :=
  String.intercalate "-" [dpName, toString stat.meter_id, stat_name]

/-- C4: with a non-empty band sequence the meter-stats sink emits exactly the
five pairs of section 4.4 in that fixed order, reading only the first band;
the quantified tail rest does not occur in the result, so additional bands
have no effect. -/
theorem meter_stat_pairs_order :
    ∀ (b : BandStats) (rest : List BandStats) (mid fc bic pic : Nat),
      meterFormatStatPairs ⟨mid, fc, bic, pic, b :: rest⟩ =
        some [ (["flow", "count"], fc),
               (["byte", "in", "count"], bic),
               (["packet", "in", "count"], pic),
               (["byte", "band", "count"], b.byte_band_count),
               (["packet", "band", "count"], b.packet_band_count) ] :=
  fun b rest mid fc bic pic => rfl

/-! Flow-Table sink (GaugeFlowTableLogger). -/

/-- A JSON value, as handed to json.dumps. -/
inductive Json where
  | str : String → Json
  | num : Int → Json
  | bool : Bool → Json
  | null : Json
  | arr : List Json → Json
  | obj : List (String × Json) → Json
  deriving Repr

/-- Lower-case hexadecimal digit for n in 0..15. -/
def hexDigit (n : Nat) : Char :=
  if n < 10 then Char.ofNat (48 + n) else Char.ofNat (87 + n % 16)

/-- The escaping json.dumps applies inside a string: backslash-escapes for
the quote, the backslash and the common control characters, a four-digit
escape for the remaining control characters, every other character kept
as is (characters beyond ASCII, which ensure_ascii would also escape, do
not occur in the strings this sink builds and are modelled as kept). -/
def jsonEscapeChar (c : Char) : String :=
  if c = Char.ofNat 34 then "\\\""
  else if c = Char.ofNat 92 then "\\\\"
  else if c = Char.ofNat 10 then "\\n"
  else if c = Char.ofNat 9 then "\\t"
  else if c = Char.ofNat 13 then "\\r"
  else if c.toNat = 8 then "\\b"
  else if c.toNat = 12 then "\\f"
  else if c.toNat < 32 then
    "\\u00" ++ String.singleton (hexDigit (c.toNat / 16)) ++
      String.singleton (hexDigit (c.toNat % 16))
  else String.singleton c

mutual

/-- json.dumps with its default separators: item separator comma-space, key
separator colon-space. -/
def jsonDumps : Json → String
  | .str s => "\"" ++ String.join (s.toList.map jsonEscapeChar) ++ "\""
  | .num n => toString n
  | .bool b => if b then "true" else "false"
  | .null => "null"
  | .arr xs => "[" ++ jsonDumpsArr xs ++ "]"
  | .obj kvs => "\x7b" ++ jsonDumpsObj kvs ++ "\x7d"

/-- The comma-separated members of a JSON array. -/
def jsonDumpsArr : List Json → String
  | [] => ""
  | [x] => jsonDumps x
  | x :: y :: rest => jsonDumps x ++ ", " ++ jsonDumpsArr (y :: rest)

/-- The comma-separated members of a JSON object. -/
def jsonDumpsObj : List (String × Json) → String
  | [] => ""
  | [(k, v)] => jsonDumps (Json.str k) ++ ": " ++ jsonDumps v
  | (k, v) :: x :: rest =>
    jsonDumps (Json.str k) ++ ": " ++ jsonDumps v ++ ", " ++ jsonDumpsObj (x :: rest)

end

/-- The failure of open(filename, ...) when no file path is configured
(open(None) raises before anything is written). -/
inductive FileOpError where
  | badPath
  deriving DecidableEq, Repr

/-- gzip.open(filename, 'at') followed by a write: the gzip file is
represented by its decompressed text content, to which an append through the
compressing stream adds exactly the written string (the round-trip fidelity
of the external gzip library). -/
def gzipAppendFile (fs : FileSys) (path s : String) : FileSys :=
  appendFile fs path s

/-- gzip decompression on the same representation: the logical content of a
gzip file is already its decompressed text. -/
def gzipDecompress (content : String) : String := content

/-- GaugeFlowTableLogger._update (watcher.py lines 145-159): builds jsondict
with the keys time, ref = '-'.join((dp.name, 'flowtables')) and
msg = msg.to_jsondict(), wraps json.dumps(jsondict) as '---\n...\n', and
appends it to conf.file, through gzip when conf.compress is set, plain
otherwise; the open of conf.file is unconditional. -/
def flowTableUpdate {τ μ : Type} (rcvTime : τ → String) (toJsondict : μ → Json)
    (dpName : String) (conf_file : Option String) (conf_compress : Bool)
    (fs : FileSys) (rcv_time : τ) (msg : μ) : Except FileOpError FileSys :=
  let rcv_time_str := rcvTime rcv_time
  let jsondict := Json.obj
    [ ("time", Json.str rcv_time_str),
      ("ref", Json.str (String.intercalate "-" [dpName, "flowtables"])),
      ("msg", toJsondict msg) ]
  match conf_file with
  | none => .error .badPath
  | some filename =>
    let outstr := "---\n" ++ jsonDumps jsondict ++ "\n"
    if conf_compress then
      .ok (gzipAppendFile fs filename outstr)
    else
      .ok (appendFile fs filename outstr)

/-- A sequence of _update calls, each handing its file system to the next. -/
def flowTableRun {τ μ : Type} (rcvTime : τ → String) (toJsondict : μ → Json)
    (dpName : String) (conf_file : Option String) (conf_compress : Bool) :
    FileSys → List (τ × μ) → Except FileOpError FileSys
  | fs, [] => .ok fs
  | fs, (t, m) :: rest =>
    match flowTableUpdate rcvTime toJsondict dpName conf_file conf_compress fs t m with
    | .error e => .error e
    | .ok fs2 => flowTableRun rcvTime toJsondict dpName conf_file conf_compress fs2 rest

/-- String append is associative. -/
theorem strAppend_assoc (a b c : String) : a ++ b ++ c = a ++ (b ++ c) := by
  apply String.ext
  simp [String.data_append, List.append_assoc]

/-- C6: with a configured file, one plain-mode _update call appends exactly
one document, the separator line followed by the serialized JSON object with
exactly the fields time (the rendered receive time), ref (device name ++
"-flowtables") and msg (the serialized snapshot), followed by a newline. -/
theorem flow_table_document_format :
    ∀ (τ μ : Type) (rcvTime : τ → String) (toJsondict : μ → Json) (dpName : String)
      (f : String) (fs : FileSys) (t : τ) (m : μ),
      flowTableUpdate rcvTime toJsondict dpName (some f) false fs t m =
        .ok (appendFile fs f
          ("---\n" ++
            jsonDumps (Json.obj
              [ ("time", Json.str (rcvTime t)),
                ("ref", Json.str (dpName ++ "-flowtables")),
                ("msg", toJsondict m) ]) ++ "\n")) := by
  intro τ μ rcvTime toJsondict dpName f fs t m
  have href : String.intercalate "-" [dpName, "flowtables"] = dpName ++ "-flowtables" := by
    rw [intercalate_two, strAppend_assoc]
    rfl
  simp [flowTableUpdate, href]

/-- C7: for the same sequence of calls on the same initial state, the content
of the configured file written in compressed mode, once decompressed, is
byte-for-byte the content written in plain mode: both branches write the
identical record string. -/
theorem flow_table_compress_equiv :
    ∀ (τ μ : Type) (rcvTime : τ → String) (toJsondict : μ → Json) (dpName : String)
      (f : String) (fs : FileSys) (calls : List (τ × μ)),
      (flowTableRun rcvTime toJsondict dpName (some f) true fs calls).map
          (fun fsOut => gzipDecompress (fsOut f)) =
        (flowTableRun rcvTime toJsondict dpName (some f) false fs calls).map
          (fun fsOut => fsOut f) := by
  intro τ μ rcvTime toJsondict dpName f fs calls
  induction calls generalizing fs with
  | nil => rfl
  | cons c rest ih =>
    obtain ⟨t, m⟩ := c
    simpa [flowTableRun, flowTableUpdate, gzipAppendFile] using ih _

/-- C9: the flow-table _update opens conf.file unconditionally, so with no
file configured every call fails at the open, in either compression mode;
the port-state _update, whose file write is guarded, performs no file write
at all in the same situation. -/
theorem flow_table_open_unconditional :
    (∀ (τ μ : Type) (rcvTime : τ → String) (toJsondict : μ → Json) (dpName : String)
        (conf_compress : Bool) (fs : FileSys) (t : τ) (m : μ),
      flowTableUpdate rcvTime toJsondict dpName none conf_compress fs t m =
        .error .badPath) ∧
    (∀ (dpidLog : Nat → String) (rcv_time_str : String) (dp_id : Nat) (msg : PortStatusMsg),
      (portStateUpdate dpidLog rcv_time_str dp_id none msg).fileWrites = []) :=
  ⟨fun τ μ rcvTime toJsondict dpName conf_compress fs t m => rfl,
   fun dpidLog rcv_time_str dp_id msg => rfl⟩
